import Mathlib

/-!
Verification of the TTL response cache and its client paths in
`weather_api.py` (class `WeatherAPI`) together with the cache settings of
`config.py`, shallowly embedded in Lean.

Modelling conventions:
* Wall-clock instants (`datetime.now()`) are explicit integer timestamps in
  seconds, passed as a `now` argument; `datetime` subtraction and the
  comparison with `timedelta(seconds=300)` become integer subtraction and
  comparison.
* The processed weather payload (a Python `dict`) is opaque to the cache; we
  model it as an association list of string fields.  Python dict truthiness
  (`if cached_data:`) is emptiness of that list.
* `self._cache` (a Python `dict`) is an association list with at most one
  entry per key, manipulated by `dictLookup` / `dictInsert` / `dictDelete`
  which mirror `key in d`, `d[key] = v` and `del d[key]`.
* The HTTP request, status checks and `_process_weather_data` are collapsed
  into a `fetch : Except String PyDict` argument: the source either obtains a
  processed payload or raises `WeatherAPIError`; all of that fallible code is
  out of scope for the cache design.
* Client functions additionally return the list of cache operations they
  performed, so that claims of the form "never calls get/put" are statable.
-/

/-- The processed weather payload (`_process_weather_data` result): a Python
dict, opaque to the cache.  Field values are rendered as strings; the cache
never inspects them. -/
abbrev PyDict := List (String × String)

/-- Python dict truthiness: `if cached_data:` on a dict is true iff the dict
is non-empty. -/
def truthy (d : PyDict) : Bool := !d.isEmpty

/-- One value of `self._cache`: the source stores
`{"data": data, "timestamp": datetime.now()}` (weather_api.py lines 111-114). -/
structure CacheEntry where
  data : PyDict
  timestamp : ℤ
deriving Repr, DecidableEq

/-- The `self._cache` dict (weather_api.py line 23): a string-keyed map with
unique keys, modelled as an association list. -/
abbrev Cache := List (String × CacheEntry)

/-- Python `key in d` / `d[key]`: first (unique) binding of `k`, if any. -/
def dictLookup (c : Cache) (k : String) : Option CacheEntry :=
  match c with
  | [] => none
  | (k', e) :: rest => if k' = k then some e else dictLookup rest k

/-- Python `d[key] = v`: overwrite the binding of `k` in place, or append a
new binding. -/
def dictInsert (c : Cache) (k : String) (e : CacheEntry) : Cache :=
  match c with
  | [] => [(k, e)]
  | (k', e') :: rest =>
    if k' = k then (k, e) :: rest else (k', e') :: dictInsert rest k e

/-- Python `del d[key]`: remove the binding of `k`. -/
def dictDelete (c : Cache) (k : String) : Cache :=
  match c with
  | [] => []
  | (k', e') :: rest => if k' = k then rest else (k', e') :: dictDelete rest k

/-- The TTL hardcoded in `_get_cached_data`:
`timedelta(seconds=300)  # 5 minutes` (weather_api.py line 124). -/
def ttlSeconds : ℤ := 300

/-- Embeds `_cache_data` (weather_api.py lines 109-114):
`self._cache[key] = {"data": data, "timestamp": datetime.now()}`. -/
def cacheData (c : Cache) (key : String) (data : PyDict) (now : ℤ) : Cache :=
  dictInsert c key ⟨data, now⟩

/-- Embeds `_get_cached_data` (weather_api.py lines 116-128).  Returns the
looked-up payload (`None` on absence or expiry) together with the cache state
after the call, since an expired entry is deleted (`del self._cache[key]`). -/
def getCachedData (c : Cache) (key : String) (now : ℤ) :
    Option PyDict × Cache :=
  match dictLookup c key with
  | none => (none, c)
  | some entry =>
    if now - entry.timestamp > ttlSeconds then (none, dictDelete c key)
    else (some entry.data, c)

/-- Embeds Python `str.lower()` on the ASCII range, as used in
`cache_key = f"city_{city.lower()}"` (weather_api.py line 30). -/
def pyLower (s : String) : String := String.mk (s.data.map Char.toLower)

/-- The cache key of `get_weather_by_city` (weather_api.py line 30):
`f"city_{city.lower()}"`. -/
def fingerprintCity (city : String) : String := "city_" ++ pyLower city

/-- Fractional decimal digits of `num / den` (with `num < den`), up to `fuel`
digits, stopping at an exact expansion. -/
def fracDigitsAux (num den : ℕ) : ℕ → List ℕ
  | 0 => []
  | fuel + 1 =>
    if num = 0 then []
    else (num * 10 / den) :: fracDigitsAux (num * 10 % den) den fuel

/-- Renders a list of decimal digits as characters. -/
def digitsToString (ds : List ℕ) : String :=
  String.mk (ds.map fun d => Char.ofNat (48 + d))

/-- Models Python `str()` on a float, with the float represented by the
rational number it denotes.  Python prints the shortest decimal string that
round-trips to the same float; on every float whose exact decimal expansion
has at most 17 fractional digits (all concrete coordinates used below) that
shortest string is the exact expansion, which is what we compute.  As in
Python, an integral value still gets one fractional digit (`str(51.0) =
"51.0"`). -/
def pyStr (q : ℚ) : String :=
  let sign := if q < 0 then "-" else ""
  let n := q.num.natAbs
  let ip := n / q.den
  let frac := fracDigitsAux (n % q.den) q.den 17
  let fracS := if frac.isEmpty then "0" else digitsToString frac
  sign ++ toString ip ++ "." ++ fracS

/-- The cache key of `get_weather_by_coordinates` (weather_api.py line 63):
`f"coords_{lat}_{lon}"`, interpolating the default string form of the two
floats. -/
def fingerprintCoords (lat lon : ℚ) : String :=
  "coords_" ++ pyStr lat ++ "_" ++ pyStr lon

/-- Number of characters after the decimal point of a rendered number: the
precision at which `pyStr` formatted its argument. -/
def fracCount (s : String) : ℕ :=
  ((s.data.dropWhile fun c => c ≠ '.').drop 1).length

/-- Embeds the guard `if not city.strip()` (weather_api.py line 27):
`strip` removes leading and trailing whitespace, so the stripped string is
empty (falsy) iff every character of `city` is whitespace. -/
def pyStripIsEmpty (s : String) : Bool := s.data.all Char.isWhitespace

/-- Outcome of the out-of-scope upstream fetch (HTTP request, status checks
and `_process_weather_data`): a processed payload, or the message of the
`WeatherAPIError` it raises. -/
abbrev FetchResult := Except String PyDict

/-- A cache operation performed by a client call, recorded so that claims
about which cache calls happen are statable. -/
inductive CacheOp where
  | get (key : String)
  | put (key : String)
deriving Repr, DecidableEq

deriving instance DecidableEq for Except

/-- Observable outcome of one client call: the returned payload or raised
error, the final cache state, and the cache operations performed in order. -/
structure ClientResult where
  result : Except String PyDict
  cache : Cache
  ops : List CacheOp
deriving Repr, DecidableEq

/-- The fetch-and-store tail of both client functions (weather_api.py lines
42-59 and 76-86): on success the processed payload is cached
(`self._cache_data(cache_key, processed_data)`) and returned; on failure a
`WeatherAPIError` propagates and the cache is untouched. -/
def fetchAndCache (st : Cache) (key : String) (now : ℤ) (fetch : FetchResult) :
    ClientResult :=
  match fetch with
  | .ok d => ⟨.ok d, cacheData st key d now, [.put key]⟩
  | .error e => ⟨.error e, st, []⟩

/-- Records the leading cache lookup in a client call's operation trace. -/
def withGet (key : String) (r : ClientResult) : ClientResult :=
  ⟨r.result, r.cache, CacheOp.get key :: r.ops⟩

/-- The shared cached-or-fetch body of both clients (weather_api.py lines
31-33 and 64-66 followed by the fetch): look the key up, return the cached
payload if it is truthy (`if cached_data: return cached_data`), otherwise
fall through to the upstream fetch. -/
def lookupOrFetch (st : Cache) (key : String) (now : ℤ) (fetch : FetchResult) :
    ClientResult :=
  match getCachedData st key now with
  | (some d, st1) =>
    if truthy d then ⟨.ok d, st1, [CacheOp.get key]⟩
    else withGet key (fetchAndCache st1 key now fetch)
  | (none, st1) => withGet key (fetchAndCache st1 key now fetch)

/-- Embeds `get_weather_by_city` (weather_api.py lines 25-59): reject an
all-whitespace city name, then run the cached-or-fetch body on the city
fingerprint. -/
def getWeatherByCity (st : Cache) (city : String) (now : ℤ)
    (fetch : FetchResult) : ClientResult :=
  if pyStripIsEmpty city then ⟨.error "City name cannot be empty", st, []⟩
  else lookupOrFetch st (fingerprintCity city) now fetch

/-- Embeds `get_weather_by_coordinates` (weather_api.py lines 61-86): the
cached-or-fetch body on the coordinate fingerprint, with no input guard. -/
def getWeatherByCoordinates (st : Cache) (lat lon : ℚ) (now : ℤ)
    (fetch : FetchResult) : ClientResult :=
  lookupOrFetch st (fingerprintCoords lat lon) now fetch

/-- The `CACHE_CONFIG` dict of config.py (lines 34-38). -/
structure CacheConfig where
  enabled : Bool
  cacheDuration : ℤ
  maxCacheSize : ℕ
deriving Repr, DecidableEq

/-- `CACHE_CONFIG = {"ENABLED": True, "CACHE_DURATION": 300,
"MAX_CACHE_SIZE": 100}` (config.py lines 34-38). -/
def CACHE_CONFIG : CacheConfig := ⟨true, 300, 100⟩

/-- `get_weather_by_city` as a function of the cache configuration: the
source never reads `CACHE_CONFIG` (weather_api.py imports only `API_CONFIG`),
so as a function of the configuration it is constant. -/
def getWeatherByCityCfg (_cfg : CacheConfig) (st : Cache) (city : String)
    (now : ℤ) (fetch : FetchResult) : ClientResult :=
  getWeatherByCity st city now fetch

/-- `get_weather_by_coordinates` as a function of the cache configuration:
likewise constant, since the source never reads `CACHE_CONFIG`. -/
def getWeatherByCoordinatesCfg (_cfg : CacheConfig) (st : Cache) (lat lon : ℚ)
    (now : ℤ) (fetch : FetchResult) : ClientResult :=
  getWeatherByCoordinates st lat lon now fetch

/-- Holds when the client's cache lookup does not produce a servable hit:
the key is absent, the entry is expired, or the stored payload is falsy
(so `if cached_data:` falls through to the fetch). -/
def missB (st : Cache) (key : String) (now : ℤ) : Bool :=
  match (getCachedData st key now).1 with
  | none => true
  | some d => !truthy d

/-- A sequence of `_cache_data` calls, one per key/value pair, all at the
same instant (no intervening expiry). -/
def putAll (c : Cache) (kvs : List (String × PyDict)) (t : ℤ) : Cache :=
  kvs.foldl (fun acc kv => cacheData acc kv.1 kv.2 t) c

/-- A concrete cache filled to the configured `MAX_CACHE_SIZE` of 100
entries, with pairwise distinct keys. -/
def bigCache : Cache :=
  (List.range 100).map fun i => (String.mk (List.replicate i 'a'), ⟨[], 0⟩)

/-! Helper lemmas about the dictionary operations and the shared client
body.  They are shared by several of the claim theorems below. -/

theorem dictLookup_insert_self (c : Cache) (k : String) (e : CacheEntry) :
    dictLookup (dictInsert c k e) k = some e := by
  induction c with
  | nil => simp [dictInsert, dictLookup]
  | cons p rest ih =>
    by_cases h : p.1 = k
    · simp [dictInsert, dictLookup, h]
    · simp [dictInsert, dictLookup, h, ih]

theorem dictLookup_insert_ne (c : Cache) (k : String) (e : CacheEntry)
    (k' : String) (h : k' ≠ k) :
    dictLookup (dictInsert c k e) k' = dictLookup c k' := by
  induction c with
  | nil => simp [dictInsert, dictLookup, Ne.symm h]
  | cons p rest ih =>
    by_cases hp : p.1 = k
    · simp [dictInsert, dictLookup, hp, Ne.symm h]
    · by_cases hp' : p.1 = k' <;>
        simp [dictInsert, dictLookup, hp, hp', h, Ne.symm h, ih]

theorem dictInsert_length_of_none (c : Cache) (k : String) (e : CacheEntry)
    (h : dictLookup c k = none) :
    (dictInsert c k e).length = c.length + 1 := by
  induction c with
  | nil => simp [dictInsert]
  | cons p rest ih =>
    by_cases hp : p.1 = k
    · simp [dictLookup, hp] at h
    · simp [dictLookup, hp] at h
      simp [dictInsert, hp, ih h]

theorem tags_disjoint (s t : String) : ("city_" ++ s) ≠ ("coords_" ++ t) := by
  intro h
  have h2 : ("city_" ++ s).data = ("coords_" ++ t).data := by rw [h]
  simp [String.data_append] at h2

theorem lookupOrFetch_ops_head (st : Cache) (key : String) (now : ℤ)
    (fetch : FetchResult) :
    (lookupOrFetch st key now fetch).ops.head? = some (CacheOp.get key) := by
  unfold lookupOrFetch
  rcases hg : getCachedData st key now with ⟨r, st1⟩
  cases r with
  | none => simp [withGet]
  | some d => by_cases ht : truthy d <;> simp [ht, withGet]

theorem lookupOrFetch_error (st : Cache) (key : String) (now : ℤ)
    (msg : String) (h : missB st key now = true) :
    lookupOrFetch st key now (.error msg)
      = ⟨.error msg, (getCachedData st key now).2, [CacheOp.get key]⟩ := by
  unfold missB at h
  unfold lookupOrFetch
  rcases hg : getCachedData st key now with ⟨r, st1⟩
  rw [hg] at h
  cases r with
  | none => simp [withGet, fetchAndCache]
  | some d =>
    simp at h
    simp [h, withGet, fetchAndCache]

theorem lookupOrFetch_falsy (st : Cache) (key : String) (now : ℤ)
    (fetch : FetchResult) (e : CacheEntry) (he : dictLookup st key = some e)
    (ht : truthy e.data = false) (hf : now - e.timestamp ≤ ttlSeconds) :
    lookupOrFetch st key now fetch = withGet key (fetchAndCache st key now fetch) := by
  have hg : getCachedData st key now = (some e.data, st) := by
    simp [getCachedData, he, if_neg (not_lt.mpr hf)]
  unfold lookupOrFetch
  rw [hg]
  simp [ht]

theorem putAll_length (kvs : List (String × PyDict)) (c : Cache) (t : ℤ)
    (hnd : (kvs.map Prod.fst).Nodup)
    (hdisj : ∀ p ∈ kvs, dictLookup c p.1 = none) :
    (putAll c kvs t).length = c.length + kvs.length := by
  induction kvs generalizing c with
  | nil => simp [putAll]
  | cons kv rest ih =>
    simp only [List.map_cons, List.nodup_cons] at hnd
    have hk : dictLookup c kv.1 = none := hdisj kv (by simp)
    have hdisj' : ∀ p ∈ rest, dictLookup (cacheData c kv.1 kv.2 t) p.1 = none := by
      intro p hp
      have hne : p.1 ≠ kv.1 := by
        intro hcontra
        exact hnd.1 (hcontra ▸ List.mem_map_of_mem Prod.fst hp)
      rw [cacheData, dictLookup_insert_ne _ _ _ _ hne]
      exact hdisj p (List.mem_cons_of_mem _ hp)
    have hstep : putAll c (kv :: rest) t = putAll (cacheData c kv.1 kv.2 t) rest t := rfl
    rw [hstep, ih (cacheData c kv.1 kv.2 t) hnd.2 hdisj', cacheData,
      dictInsert_length_of_none _ _ _ hk]
    simp [List.length_cons]
    omega

/-- C1: for every key, `_get_cached_data` returns a miss when the key is
absent; when the key is present but `now - storedAt` exceeds the 300-second
TTL it deletes the entry and returns a miss; otherwise it returns a hit with
the stored value; and in every case the only state change is that possible
deletion of the stale entry (a hit or an absent key leaves the cache exactly
as it was). -/
theorem getCachedData_spec (c : Cache) (key : String) (now : ℤ) :
    (dictLookup c key = none → getCachedData c key now = (none, c)) ∧
    ∀ e, dictLookup c key = some e →
      (now - e.timestamp > ttlSeconds →
        getCachedData c key now = (none, dictDelete c key)) ∧
      (now - e.timestamp ≤ ttlSeconds →
        getCachedData c key now = (some e.data, c)) := by
  refine ⟨fun h => by simp [getCachedData, h],
    fun e he => ⟨fun hgt => ?_, fun hle => ?_⟩⟩
  · simp [getCachedData, he, if_pos hgt]
  · simp [getCachedData, he, if_neg (not_lt.mpr hle)]

/-- Witness for C1, on the spec's own scenario (TTL = 300): after a put of
`W1` at `t = 0`, a get at `t = 299` is a hit with `W1` and leaves the cache
unchanged, and a get at `t = 301` is a miss that deletes the entry. -/
theorem getCachedData_spec_witness :
    getCachedData (cacheData [] "city_london" [("t", "1")] 0) "city_london" 299
        = (some [("t", "1")], cacheData [] "city_london" [("t", "1")] 0) ∧
    getCachedData (cacheData [] "city_london" [("t", "1")] 0) "city_london" 301
        = (none, []) := by
  constructor
  · exact ((getCachedData_spec (cacheData [] "city_london" [("t", "1")] 0)
      "city_london" 299).2 ⟨[("t", "1")], 0⟩ (by decide)).2 (by decide)
  · have h := ((getCachedData_spec (cacheData [] "city_london" [("t", "1")] 0)
      "city_london" 301).2 ⟨[("t", "1")], 0⟩ (by decide)).1 (by decide)
    rw [h]; decide

/-- C2: immediately after `_cache_data` stores `v` under `k`,
`_get_cached_data` on `k` returns a hit with exactly `v` (and changes
nothing). -/
theorem put_then_get_hit (c : Cache) (k : String) (v : PyDict) (now : ℤ) :
    getCachedData (cacheData c k v now) k now = (some v, cacheData c k v now) := by
  have hl : dictLookup (cacheData c k v now) k = some ⟨v, now⟩ :=
    dictLookup_insert_self c k ⟨v, now⟩
  simp [getCachedData, hl, ttlSeconds]

/-- C3: a second `_cache_data` on the same key overwrites both the stored
value and the stored timestamp; a `_get_cached_data` within the TTL of the
second put returns a hit with the second value, never the first. -/
theorem overwrite_law (c : Cache) (k : String) (v1 v2 : PyDict) (t1 t2 t3 : ℤ) :
    dictLookup (cacheData (cacheData c k v1 t1) k v2 t2) k = some ⟨v2, t2⟩ ∧
    (t3 - t2 ≤ ttlSeconds →
      getCachedData (cacheData (cacheData c k v1 t1) k v2 t2) k t3
        = (some v2, cacheData (cacheData c k v1 t1) k v2 t2)) ∧
    (t3 - t2 ≤ ttlSeconds → v1 ≠ v2 →
      (getCachedData (cacheData (cacheData c k v1 t1) k v2 t2) k t3).1
        ≠ some v1) := by
  have hl : dictLookup (cacheData (cacheData c k v1 t1) k v2 t2) k
      = some ⟨v2, t2⟩ := dictLookup_insert_self _ k ⟨v2, t2⟩
  refine ⟨hl, fun hle => ?_, fun hle hne => ?_⟩
  · simp [getCachedData, hl, if_neg (not_lt.mpr hle)]
  · simp [getCachedData, hl, if_neg (not_lt.mpr hle)]
    exact fun hcontra => hne hcontra.symm

/-- Witness for C3: with `v1 ≠ v2`, puts at `t = 0` and `t = 10` and a get at
`t = 300` (within TTL of the second put) give a hit with the stored entry
`(v2, 10)`, hence the value `v2` and not `v1`. -/
theorem overwrite_law_witness :
    getCachedData (cacheData (cacheData [] "k" [("a", "1")] 0) "k" [("b", "2")] 10)
        "k" 300
      = (some [("b", "2")],
         cacheData (cacheData [] "k" [("a", "1")] 0) "k" [("b", "2")] 10) ∧
    (getCachedData (cacheData (cacheData [] "k" [("a", "1")] 0) "k" [("b", "2")] 10)
        "k" 300).1 ≠ some [("a", "1")] :=
  ⟨(overwrite_law [] "k" [("a", "1")] [("b", "2")] 0 10 300).2.1 (by decide),
   (overwrite_law [] "k" [("a", "1")] [("b", "2")] 0 10 300).2.2 (by decide)
     (by decide)⟩

/-- Counterexample to C4 as stated: with a stale entry for the requested key
in the cache, a call whose upstream fetch fails surfaces the typed error but
does NOT leave the cache state equal to its pre-call state — the lazy expiry
inside the lookup already deleted the stale entry. -/
theorem fetchFailure_state_changed :
    getWeatherByCity [("city_london", ⟨[("t", "1")], 0⟩)] "London" 301
        (.error "boom")
      = ⟨.error "boom", [], [CacheOp.get "city_london"]⟩ ∧
    ([] : Cache) ≠ [("city_london", ⟨[("t", "1")], 0⟩)] :=
  ⟨by decide, by decide⟩

/-- C4 (amended): when the upstream fetch fails after a cache miss (absent,
expired, or falsy entry), both clients store no entry and surface the typed
error unmasked; the final cache state equals the state right after the cache
lookup, so the only possible difference from the pre-call state is the lazy
deletion of an expired entry for the requested key. -/
theorem fetchFailure_no_store (st : Cache) (city : String) (lat lon : ℚ)
    (now : ℤ) (msg : String) :
    (pyStripIsEmpty city = false → missB st (fingerprintCity city) now = true →
      getWeatherByCity st city now (.error msg)
        = ⟨.error msg, (getCachedData st (fingerprintCity city) now).2,
            [CacheOp.get (fingerprintCity city)]⟩) ∧
    (missB st (fingerprintCoords lat lon) now = true →
      getWeatherByCoordinates st lat lon now (.error msg)
        = ⟨.error msg, (getCachedData st (fingerprintCoords lat lon) now).2,
            [CacheOp.get (fingerprintCoords lat lon)]⟩) := by
  constructor
  · intro hb hm
    unfold getWeatherByCity
    rw [if_neg (by simp [hb])]
    exact lookupOrFetch_error _ _ _ _ hm
  · intro hm
    exact lookupOrFetch_error _ _ _ _ hm

/-- Witness for C4 (amended): on an empty cache a failed fetch leaves the
cache empty, performs only the lookup, and returns the error. -/
theorem fetchFailure_no_store_witness :
    getWeatherByCity [] "Paris" 0 (.error "down")
      = ⟨.error "down", [], [CacheOp.get "city_paris"]⟩ := by
  have h := (fetchFailure_no_store [] "Paris" 0 0 0 "down").1 (by decide) (by decide)
  rw [h]; decide

/-- C5: the city fingerprint is a pure function of the city string; two city
strings with the same lowercasing (equal up to letter case) yield the same
key, e.g. "London" and "london"; and no city-keyed fingerprint ever equals a
coordinate-keyed fingerprint, because of the distinct "city_" / "coords_"
tags. -/
theorem fingerprintCity_spec (c1 c2 : String) :
    (pyLower c1 = pyLower c2 → fingerprintCity c1 = fingerprintCity c2) ∧
    fingerprintCity "London" = fingerprintCity "london" ∧
    ∀ lat lon : ℚ, fingerprintCity c1 ≠ fingerprintCoords lat lon := by
  refine ⟨fun h => ?_, by decide, fun lat lon => tags_disjoint _ _⟩
  unfold fingerprintCity
  rw [h]

/-- Witness for C5: "LONDON" and "london" share a fingerprint, and the
fingerprint of "London" differs from a concrete coordinate fingerprint. -/
theorem fingerprintCity_spec_witness :
    fingerprintCity "LONDON" = fingerprintCity "london" ∧
    fingerprintCity "London" ≠ fingerprintCoords (mkRat 103 2) (mkRat 103 2) :=
  ⟨(fingerprintCity_spec "LONDON" "london").1 (by decide),
   (fingerprintCity_spec "London" "london").2.2 (mkRat 103 2) (mkRat 103 2)⟩

/-- Counterexample to C6 as stated: the coordinate key interpolates Python's
default float formatting, which is not fixed-precision — `51.5` is rendered
with one fractional digit and `51.25` with two, so no single precision `p`
describes the formatting of all coordinates. -/
theorem fingerprintCoords_not_fixed_precision :
    fingerprintCoords (mkRat 103 2) (mkRat 205 4) = "coords_51.5_51.25" ∧
    fracCount (pyStr (mkRat 103 2)) = 1 ∧
    fracCount (pyStr (mkRat 205 4)) = 2 ∧
    ¬ ∃ p : ℕ, ∀ q : ℚ, fracCount (pyStr q) = p := by
  refine ⟨by decide, by decide, by decide, ?_⟩
  rintro ⟨p, hp⟩
  have h1 := hp (mkRat 103 2)
  have h2 := hp (mkRat 205 4)
  have e1 : fracCount (pyStr (mkRat 103 2)) = 1 := by decide
  have e2 : fracCount (pyStr (mkRat 205 4)) = 2 := by decide
  omega

/-- C6 (amended): the coordinate fingerprint is built from the two float
values formatted with Python's default (shortest round-trip,
variable-precision) string conversion, prefixed with the tag "coords_",
which is distinct from the city tag, so it never equals a city fingerprint. -/
theorem fingerprintCoords_amended (lat lon : ℚ) :
    fingerprintCoords lat lon = "coords_" ++ (pyStr lat ++ "_" ++ pyStr lon) ∧
    ∀ city : String, fingerprintCity city ≠ fingerprintCoords lat lon :=
  ⟨rfl, fun _ => tags_disjoint _ _⟩

/-- Witness for C6 (amended), at a concrete coordinate pair and city. -/
theorem fingerprintCoords_amended_witness :
    fingerprintCity "london" ≠ fingerprintCoords (mkRat 103 2) (mkRat 205 4) :=
  (fingerprintCoords_amended (mkRat 103 2) (mkRat 205 4)).2 "london"

/-- Counterexample to C7 as stated: with a configuration whose enabled flag
is false, the client still performs a cache lookup and a cache store — the
source never reads `CACHE_CONFIG`, so nothing is bypassed. -/
theorem enabledFlag_ignored_cex :
    (⟨false, 300, 100⟩ : CacheConfig).enabled = false ∧
    (getWeatherByCityCfg ⟨false, 300, 100⟩ [] "London" 0
        (.ok [("t", "1")])).ops
      = [CacheOp.get "city_london", CacheOp.put "city_london"] :=
  ⟨rfl, by decide⟩

/-- C7 (amended): the clients never consult `CACHE_CONFIG`; their behavior is
the same for every configuration (in particular for enabled = false and for
the repository's enabled = true), and every non-rejected request begins with
a cache lookup — the cache is never bypassed. -/
theorem enabledFlag_unused (cfg : CacheConfig) (st : Cache) (city : String)
    (lat lon : ℚ) (now : ℤ) (fetch : FetchResult) :
    getWeatherByCityCfg cfg st city now fetch
      = getWeatherByCityCfg CACHE_CONFIG st city now fetch ∧
    getWeatherByCoordinatesCfg cfg st lat lon now fetch
      = getWeatherByCoordinatesCfg CACHE_CONFIG st lat lon now fetch ∧
    (pyStripIsEmpty city = false →
      (getWeatherByCityCfg cfg st city now fetch).ops.head?
        = some (CacheOp.get (fingerprintCity city))) ∧
    (getWeatherByCoordinatesCfg cfg st lat lon now fetch).ops.head?
      = some (CacheOp.get (fingerprintCoords lat lon)) := by
  refine ⟨rfl, rfl, fun hb => ?_, ?_⟩
  · unfold getWeatherByCityCfg getWeatherByCity
    rw [if_neg (by simp [hb])]
    exact lookupOrFetch_ops_head _ _ _ _
  · exact lookupOrFetch_ops_head _ _ _ _

/-- Witness for C7 (amended): under the disabled configuration a concrete
request still starts with a cache lookup. -/
theorem enabledFlag_unused_witness :
    (getWeatherByCityCfg ⟨false, 300, 100⟩ [] "Berlin" 0
        (.ok [("t", "1")])).ops.head?
      = some (CacheOp.get "city_berlin") := by
  have h := (enabledFlag_unused ⟨false, 300, 100⟩ [] "Berlin" 0 0 0
    (.ok [("t", "1")])).2.2.1 (by decide)
  rw [h]; decide

/-- C8: a put changes at most the entry of its own key (all other lookups are
unchanged) and never removes an entry; there is no size-based eviction — n
puts on distinct keys starting from empty leave exactly n entries, and a put
on a cache already holding the configured maximum of 100 entries yields 101
entries. -/
theorem put_frame_no_size_eviction (c : Cache) (k k' : String) (v : PyDict)
    (t : ℤ) (kvs : List (String × PyDict)) :
    (k' ≠ k → dictLookup (cacheData c k v t) k' = dictLookup c k') ∧
    (dictLookup c k = none → (cacheData c k v t).length = c.length + 1) ∧
    ((kvs.map Prod.fst).Nodup → (putAll [] kvs t).length = kvs.length) ∧
    (bigCache.length = CACHE_CONFIG.maxCacheSize ∧
      dictLookup bigCache "overflow" = none ∧
      (cacheData bigCache "overflow" [] 0).length
        = CACHE_CONFIG.maxCacheSize + 1) := by
  refine ⟨fun hne => dictLookup_insert_ne c k ⟨v, t⟩ k' hne,
    fun hnone => dictInsert_length_of_none c k ⟨v, t⟩ hnone,
    fun hnd => ?_, ?_, ?_, ?_⟩
  · have h := putAll_length kvs [] t hnd (fun p _ => rfl)
    simpa using h
  · simp [bigCache, CACHE_CONFIG]
  · decide
  · rw [cacheData, dictInsert_length_of_none _ _ _ (by decide)]
    simp [bigCache, CACHE_CONFIG]

/-- Witness for C8: a put under a fresh key leaves the binding of another key
untouched. -/
theorem put_frame_witness :
    dictLookup (cacheData [("a", ⟨[("x", "1")], 5⟩)] "b" [("y", "2")] 9) "a"
      = some ⟨[("x", "1")], 5⟩ := by
  have h := (put_frame_no_size_eviction [("a", ⟨[("x", "1")], 5⟩)] "b" "a"
    [("y", "2")] 9 []).1 (by decide)
  rw [h]; decide

/-- C9: for an all-whitespace (or empty) city string, `get_weather_by_city`
raises "City name cannot be empty" before touching the cache or the network:
the cache state is returned unchanged, no cache operation is performed, and
the outcome is independent of the upstream fetch. -/
theorem blankCity_error (st : Cache) (city : String) (now : ℤ)
    (fetch : FetchResult) (h : pyStripIsEmpty city = true) :
    getWeatherByCity st city now fetch
      = ⟨.error "City name cannot be empty", st, []⟩ := by
  unfold getWeatherByCity
  rw [if_pos h]

/-- Witness for C9, at the empty string and at a whitespace-only string. -/
theorem blankCity_error_witness :
    getWeatherByCity [] "" 0 (.ok [("t", "1")])
      = ⟨.error "City name cannot be empty", [], []⟩ ∧
    getWeatherByCity [("k", ⟨[], 0⟩)] " " 3 (.error "x")
      = ⟨.error "City name cannot be empty", [("k", ⟨[], 0⟩)], []⟩ :=
  ⟨blankCity_error [] "" 0 (.ok [("t", "1")]) (by decide),
   blankCity_error [("k", ⟨[], 0⟩)] " " 3 (.error "x") (by decide)⟩

/-- C10: a fresh cache entry whose stored payload is falsy (the empty dict)
is treated as a miss by both clients: the call proceeds exactly as the
upstream-fetch path instead of returning the cached value. -/
theorem falsyEntry_miss (st : Cache) (city : String) (lat lon : ℚ) (now : ℤ)
    (fetch : FetchResult) :
    (∀ e, pyStripIsEmpty city = false →
      dictLookup st (fingerprintCity city) = some e →
      truthy e.data = false → now - e.timestamp ≤ ttlSeconds →
      getWeatherByCity st city now fetch
        = withGet (fingerprintCity city)
            (fetchAndCache st (fingerprintCity city) now fetch)) ∧
    (∀ e, dictLookup st (fingerprintCoords lat lon) = some e →
      truthy e.data = false → now - e.timestamp ≤ ttlSeconds →
      getWeatherByCoordinates st lat lon now fetch
        = withGet (fingerprintCoords lat lon)
            (fetchAndCache st (fingerprintCoords lat lon) now fetch)) := by
  constructor
  · intro e hb he ht hf
    unfold getWeatherByCity
    rw [if_neg (by simp [hb])]
    exact lookupOrFetch_falsy _ _ _ _ e he ht hf
  · intro e he ht hf
    exact lookupOrFetch_falsy _ _ _ _ e he ht hf

/-- Witness for C10: a fresh empty-dict entry for "city_paris" is skipped and
the fetched payload is stored over it. -/
theorem falsyEntry_miss_witness :
    getWeatherByCity [("city_paris", ⟨[], 0⟩)] "Paris" 10 (.ok [("t", "2")])
      = ⟨.ok [("t", "2")],
         cacheData [("city_paris", ⟨[], 0⟩)] "city_paris" [("t", "2")] 10,
         [CacheOp.get "city_paris", CacheOp.put "city_paris"]⟩ := by
  have h := (falsyEntry_miss [("city_paris", ⟨[], 0⟩)] "Paris" 0 0 10
    (.ok [("t", "2")])).1 ⟨[], 0⟩ (by decide) (by decide) (by decide) (by decide)
  rw [h]; decide
